import Mathlib

/-!
Shallow embedding of `src/main.py` (a single-file Gemini chatbot) and
verification of its specified behaviour.

Python strings are modelled as Lean `String`; environment variables as
`Option String` (absent = `none`); Python truthiness of such a value is
`envTruthy`.  Exceptions (`EnvironmentError`) become `Except String`.
The network client object is the inductive `Client`, recording only the
transport mode and its parameters, which is all the program passes to it.
-/

namespace VertexAITesting

/-- ASCII whitespace as recognised by Python `str.strip()` (space, tab,
newline, carriage return, vertical tab, form feed; the further Unicode
whitespace Python also strips does not occur in any string this program
handles). -/
def isPySpace (c : Char) : Bool :=
  c.toNat = 32 || c.toNat = 9 || c.toNat = 10 || c.toNat = 13 || c.toNat = 11 || c.toNat = 12

/-- Python `str.strip()` on the character list: drop whitespace from both ends. -/
def stripList (l : List Char) : List Char :=
  (l.dropWhile isPySpace).rdropWhile isPySpace

/-- Python `str.strip()`. -/
def pyStrip (s : String) : String := ⟨stripList s.data⟩

/-- Python `str.lower()` (ASCII case folding, which covers every string
this program lowers). -/
def pyLower (s : String) : String := ⟨s.data.map Char.toLower⟩

/-- Python `str(value)` for `value : str | None`. -/
def pyStr : Option String → String
  | none => "None"
  | some s => s

/-- Python truthiness of an optional string: `None` and `""` are falsy. -/
def envTruthy : Option String → Bool
  | none => false
  | some s => !(s = "")

/-- Python `a or b` on optional strings. -/
def pyOr (a b : Option String) : Option String :=
  if envTruthy a then a else b

/-- `_as_bool` from `src/main.py` line 25:
`str(value).strip().lower()` membership in the four truthy spellings. -/
def _as_bool (value : Option String) : Bool :=
  let s := pyLower (pyStrip (pyStr value))
  s = "1" || s = "true" || s = "yes" || s = "on"

/-- The character class `[0-9A-Za-z_-]` of the key regex. -/
def isKeyChar (c : Char) : Bool :=
  (48 ≤ c.toNat && c.toNat ≤ 57) || (65 ≤ c.toNat && c.toNat ≤ 90) ||
    (97 ≤ c.toNat && c.toNat ≤ 122) || c.toNat = 95 || c.toNat = 45

/-- `re.fullmatch` of the pattern `AIza` followed by at least 20
characters of the class `[0-9A-Za-z_-]` (line 40 of `src/main.py`). -/
def matchesKeyPattern (s : String) : Bool :=
  match s.data with
  | 'A' :: 'I' :: 'z' :: 'a' :: rest => decide (20 ≤ rest.length) && rest.all isKeyChar
  | _ => false

/-- `blocked_prefixes` from `src/main.py` line 31. -/
def blocked_prefixes : List String := ["Bearer ", "ya29.", "auth_tokens/", "AQ."]

/-- Python `s.startswith(p)`. -/
def strStartsWith (s p : String) : Bool := p.data.isPrefixOf s.data

/-- An ASCII apostrophe, used to reproduce message text verbatim. -/
def apos : String := String.singleton (Char.ofNat 39)

/-- Message of the blocked-prefix rejection (`src/main.py` lines 34-38). -/
def oauthTokenMsg : String :=
  "GOOGLE_API_KEY looks like an OAuth/ephemeral token, not a Google API key. " ++
    "Use a real Gemini/Google API key for Developer API mode, or switch to " ++
    "Vertex mode with GOOGLE_GENAI_USE_VERTEXAI=true and ADC."

/-- Message of the pattern-mismatch rejection (`src/main.py` lines 41-44). -/
def invalidKeyMsg : String :=
  "GOOGLE_API_KEY format looks invalid for Gemini Developer API. " ++
    "Expected a Google API key that typically starts with " ++ apos ++ "AIza" ++ apos ++ "."

/-- `_validate_developer_api_key` from `src/main.py` lines 29-46: strip the
key, reject blocked prefixes, reject non-matches of the vendor pattern,
return the stripped key. -/
def _validate_developer_api_key (api_key : String) : Except String String :=
  let normalized := pyStrip api_key
  if blocked_prefixes.any (fun p => strStartsWith normalized p) then
    .error oauthTokenMsg
  else if !matchesKeyPattern normalized then
    .error invalidKeyMsg
  else
    .ok normalized

/-- The environment variables `_build_client` reads. -/
structure Env where
  GEMINI_MODEL : Option String
  GOOGLE_GENAI_USE_VERTEXAI : Option String
  GOOGLE_API_KEY : Option String
  GEMINI_API_KEY : Option String
  GOOGLE_CLOUD_PROJECT : Option String
  GOOGLE_CLOUD_LOCATION : Option String

/-- The opaque SDK client, reduced to the constructor arguments the
program passes (`genai.Client(vertexai=True, project=.., location=..)`
versus `genai.Client(api_key=..)`). -/
inductive Client where
  | vertexClient (project location : String)
  | apiKeyClient (key : String)

/-- Message raised when managed mode lacks a project (`src/main.py` lines 62-64). -/
def missingProjectMsg : String :=
  "GOOGLE_CLOUD_PROJECT is required when GOOGLE_GENAI_USE_VERTEXAI=true."

/-- Message raised when ADC resolution fails and no fallback key exists
(`src/main.py` lines 76-80). -/
def adcMissingMsg : String :=
  "Vertex AI mode is enabled, but Application Default Credentials (ADC) " ++
    "were not found. Run gcloud auth application-default login or set " ++
    "GOOGLE_GENAI_USE_VERTEXAI=false and configure GOOGLE_API_KEY."

/-- Message raised when key mode has no key (`src/main.py` lines 88-90). -/
def missingKeyMsg : String :=
  "GOOGLE_API_KEY (or GEMINI_API_KEY) is not set. Add it to your .env file."

/-- Diagnostic printed when falling back from Vertex mode to key mode
(`src/main.py` lines 70-73). -/
def fallbackNotice : String :=
  "[startup] Vertex AI credentials not found. Falling back to Gemini API key mode."

/-- Python `str(bool)` as it appears in the startup f-string. -/
def pyBoolStr (b : Bool) : String := if b then "True" else "False"

/-- `_build_client` from `src/main.py` lines 49-92.  `adcOk` stands for
whether `google.auth.default()` succeeds (ambient credential resolution,
an effect of the hosting environment).  The result pairs the lines printed
to stdout with either the raised `EnvironmentError` message or the
constructed client and model name. -/
def _build_client (env : Env) (adcOk : Bool) :
    List String × Except String (Client × String) :=
  let model := env.GEMINI_MODEL.getD "gemini-2.5-flash"
  let use_vertex := _as_bool env.GOOGLE_GENAI_USE_VERTEXAI
  let api_key := pyOr env.GOOGLE_API_KEY env.GEMINI_API_KEY
  let startupLogs := ["[startup] Using model: " ++ model,
    "[startup] GOOGLE_GENAI_USE_VERTEXAI: " ++ pyBoolStr use_vertex]
  if use_vertex then
    let project := env.GOOGLE_CLOUD_PROJECT
    let location := env.GOOGLE_CLOUD_LOCATION.getD "us-central1"
    if !envTruthy project then
      (startupLogs, .error missingProjectMsg)
    else if !adcOk then
      if envTruthy api_key then
        match _validate_developer_api_key (api_key.getD "") with
        | .ok k => (startupLogs ++ [fallbackNotice], .ok (.apiKeyClient k, model))
        | .error e => (startupLogs ++ [fallbackNotice], .error e)
      else
        (startupLogs, .error adcMissingMsg)
    else
      (startupLogs, .ok (.vertexClient (project.getD "") location, model))
  else
    if !envTruthy api_key then
      (startupLogs, .error missingKeyMsg)
    else
      match _validate_developer_api_key (api_key.getD "") with
      | .ok k => (startupLogs, .ok (.apiKeyClient k, model))
      | .error e => (startupLogs, .error e)

/-- The fixed fallback reply of `_generate_answer` (`src/main.py` line 105). -/
def rephraseFallback : String :=
  "I couldn" ++ apos ++ "t generate a text response for that prompt. Please try rephrasing."

/-- `_generate_answer` from `src/main.py` lines 95-105, parameterised by
the `response.text` the SDK returned (`none` when the model produced no
text part): `(response.text or "").strip()`, with the fixed fallback when
that is empty. -/
def _generate_answer (responseText : Option String) : String :=
  let text := pyStrip ((pyOr responseText (some "")).getD "")
  if text = "" then rephraseFallback else text

/-- The exception classes of the `google.genai.errors` module that a
`generate_content` call can raise, as documented by that SDK (outside this
repository): `ClientError` for HTTP 4xx failures (quota exhaustion,
invalid requests) and `ServerError` for HTTP 5xx failures (transient
service errors).  Only `ClientError` is named in the `except` clause of
`main` (`src/main.py` line 135). -/
inductive ApiError where
  | clientError (msg : String)
  | serverError (msg : String)

/-- Observable outcome of one iteration of the `main` loop. -/
inductive LoopAction where
  | breakWith (outMsgs : List String)
  | continueWith (outMsgs : List String)
  | raiseExc (e : ApiError)

/-- One iteration of the `while True` loop of `main` (`src/main.py` lines
119-139).  `inputLine` is the result of `input()` (`none` for
`EOFError`/`KeyboardInterrupt`); `call` is the `generate_content` request,
returning the reply text or raising an `ApiError`. -/
def mainTurn (inputLine : Option String)
    (call : String → Except ApiError (Option String)) : LoopAction :=
  match inputLine with
  | none => .breakWith ["\nGoodbye!"]
  | some raw =>
    let user_input := pyStrip raw
    if user_input = "" then
      .continueWith []
    else if pyLower user_input = "quit" || pyLower user_input = "exit" then
      .breakWith ["Goodbye!"]
    else
      match call user_input with
      | .ok t => .continueWith ["\nBot: " ++ _generate_answer t ++ "\n"]
      | .error (.clientError msg) => .continueWith ["\nError: " ++ msg ++ "\n"]
      | .error (.serverError msg) => .raiseExc (.serverError msg)

/-! ### Helper lemmas about stripping and the key pattern -/

theorem stripList_prefix_of_head_not_space (c : Char) (t : List Char)
    (h : isPySpace c = false) : stripList (c :: t) <+: c :: t := by
  unfold stripList
  rw [List.dropWhile_cons, if_neg (by simp [h])]
  exact List.rdropWhile_prefix _ _

theorem stripList_idem (l : List Char) : stripList (stripList l) = stripList l := by
  unfold stripList
  have h1 : (List.rdropWhile isPySpace (l.dropWhile isPySpace)).dropWhile isPySpace
      = List.rdropWhile isPySpace (l.dropWhile isPySpace) := by
    rcases hr : List.rdropWhile isPySpace (l.dropWhile isPySpace) with _ | ⟨c, t⟩
    · simp
    · have hpre : (c :: t) <+: l.dropWhile isPySpace := hr ▸ List.rdropWhile_prefix _ _
      obtain ⟨s, hs⟩ := hpre
      have hc : isPySpace c = false := by
        have hg := List.head?_dropWhile_not isPySpace l
        rw [← hs] at hg
        simpa using hg
      rw [List.dropWhile_cons, if_neg (by simp [hc])]
  rw [h1, List.rdropWhile_idempotent]

theorem pyStrip_idem (s : String) : pyStrip (pyStrip s) = pyStrip s := by
  simp [pyStrip, stripList_idem]

theorem stripList_eq_self (l : List Char) (h : ∀ c ∈ l, isPySpace c = false) :
    stripList l = l := by
  unfold stripList
  have h1 : l.dropWhile isPySpace = l := by
    rw [List.dropWhile_eq_self_iff]
    intro hl
    simp only [List.get_eq_getElem, Bool.not_eq_true]
    exact h _ (List.getElem_mem hl)
  rw [h1, List.rdropWhile_eq_self_iff]
  intro hl
  simp [h _ (List.getLast_mem hl)]

theorem isKeyChar_not_space (c : Char) (h : isKeyChar c = true) : isPySpace c = false := by
  simp only [isKeyChar, Bool.or_eq_true, Bool.and_eq_true, decide_eq_true_eq] at h
  simp only [isPySpace, Bool.or_eq_false_iff, decide_eq_false_iff_not]
  omega

theorem matchesKeyPattern_shape (s : String) (h : matchesKeyPattern s = true) :
    ∃ rest, s.data = 'A' :: 'I' :: 'z' :: 'a' :: rest ∧
      20 ≤ rest.length ∧ rest.all isKeyChar = true := by
  unfold matchesKeyPattern at h
  split at h
  · next rest heq =>
    exact ⟨rest, heq, by simpa using h⟩
  · exact absurd h (by simp)

theorem matchesKeyPattern_ne_empty (s : String) (h : matchesKeyPattern s = true) :
    s ≠ "" := by
  obtain ⟨rest, hd, -, -⟩ := matchesKeyPattern_shape s h
  intro he
  rw [he] at hd
  simp at hd

theorem pyStrip_of_pattern (s : String) (h : matchesKeyPattern s = true) :
    pyStrip s = s := by
  obtain ⟨rest, hd, hlen, hall⟩ := matchesKeyPattern_shape s h
  have hns : ∀ c ∈ s.data, isPySpace c = false := by
    intro c hc
    rw [hd] at hc
    simp only [List.mem_cons] at hc
    rcases hc with rfl | rfl | rfl | rfl | hc
    · decide
    · decide
    · decide
    · decide
    · exact isKeyChar_not_space c (by
        rw [List.all_eq_true] at hall
        simpa using hall c hc)
  cases s with
  | mk data =>
    simp only [pyStrip]
    exact congrArg String.mk (stripList_eq_self data hns)

/-! ### Lemmas about the key validator -/

theorem blocked_not_prefix_of_pattern (k : String)
    (h : matchesKeyPattern (pyStrip k) = true) :
    blocked_prefixes.any (fun p => strStartsWith (pyStrip k) p) = false := by
  obtain ⟨rest, hd, -, -⟩ := matchesKeyPattern_shape _ h
  have h1 : "Bearer ".data = ['B', 'e', 'a', 'r', 'e', 'r', ' '] := rfl
  have h2 : "ya29.".data = ['y', 'a', '2', '9', '.'] := rfl
  have h3 : "auth_tokens/".data = ['a', 'u', 't', 'h', '_', 't', 'o', 'k', 'e', 'n', 's', '/'] := rfl
  have h4 : "AQ.".data = ['A', 'Q', '.'] := rfl
  simp [blocked_prefixes, strStartsWith, hd, h1, h2, h3, h4, List.isPrefixOf]

theorem validate_ok_of_pattern (k : String) (h : matchesKeyPattern (pyStrip k) = true) :
    _validate_developer_api_key k = .ok (pyStrip k) := by
  unfold _validate_developer_api_key
  rw [if_neg (by simp [blocked_not_prefix_of_pattern k h]), if_neg (by simp [h])]

theorem not_pattern_of_blocked (k p : String) (hp : p ∈ blocked_prefixes)
    (h : strStartsWith k p = true) : matchesKeyPattern (pyStrip k) = false := by
  by_contra hm
  rw [Bool.not_eq_false] at hm
  obtain ⟨rest, hd, -, -⟩ := matchesKeyPattern_shape _ hm
  rw [strStartsWith, List.isPrefixOf_iff_prefix] at h
  obtain ⟨t, ht⟩ := h
  have hstrip : stripList k.data <+: k.data := by
    simp only [blocked_prefixes, List.mem_cons, List.not_mem_nil, or_false] at hp
    rcases hp with rfl | rfl | rfl | rfl <;>
      · rw [← ht]
        simp only [List.cons_append]
        exact stripList_prefix_of_head_not_space _ _ (by decide)
  have hd2 : ('A' :: 'I' :: 'z' :: 'a' :: rest) <+: k.data := by
    rw [← hd]
    exact hstrip
  simp only [blocked_prefixes, List.mem_cons, List.not_mem_nil, or_false] at hp
  obtain ⟨u, hu⟩ := hd2
  rcases hp with rfl | rfl | rfl | rfl <;>
    · rw [← ht] at hu
      simp only [List.cons_append, List.cons.injEq] at hu
      simp at hu

theorem validate_error_cases (k : String)
    (h : (∃ p ∈ blocked_prefixes, strStartsWith k p = true) ∨
      matchesKeyPattern (pyStrip k) = false) :
    _validate_developer_api_key k = .error oauthTokenMsg ∨
      _validate_developer_api_key k = .error invalidKeyMsg := by
  have hpat : matchesKeyPattern (pyStrip k) = false := by
    rcases h with ⟨p, hp, hs⟩ | h
    · exact not_pattern_of_blocked k p hp hs
    · exact h
  unfold _validate_developer_api_key
  rcases hb : blocked_prefixes.any (fun p => strStartsWith (pyStrip k) p) with _ | _
  · right
    rw [if_neg (by simp [hb]), if_pos (by simp [hpat])]
  · left
    rw [if_pos (by simp [hb])]

theorem validate_ok_eq_strip (k r : String)
    (h : _validate_developer_api_key k = .ok r) : r = pyStrip k := by
  unfold _validate_developer_api_key at h
  simp only [] at h
  split at h
  · exact absurd h (by simp)
  · split at h
    · exact absurd h (by simp)
    · simpa using h.symm

/-! ### Claim theorems -/

/-- C4 (counterexample): the flag parser strips whitespace before matching,
so the string consisting of a space followed by `true`, which is not a
case-insensitive match of any of the four accepted spellings, is still
parsed as true. -/
theorem as_bool_unstripped_counterexample :
    _as_bool (some " true") = true ∧ pyLower " true" ≠ "1" ∧
      pyLower " true" ≠ "true" ∧ pyLower " true" ≠ "yes" ∧ pyLower " true" ≠ "on" := by
  refine ⟨rfl, ?_, ?_, ?_, ?_⟩ <;> decide

/-- C4 (amended): the boolean flag parser returns true exactly when the
whitespace-stripped form of the input is a case-insensitive match of one
of `1`, `true`, `yes`, `on`; it returns false for every other string and
for an absent value. -/
theorem as_bool_spec (value : Option String) :
    (_as_bool value = true ↔
      (pyLower (pyStrip (pyStr value)) = "1" ∨ pyLower (pyStrip (pyStr value)) = "true" ∨
        pyLower (pyStrip (pyStr value)) = "yes" ∨ pyLower (pyStrip (pyStr value)) = "on")) ∧
    _as_bool none = false := by
  constructor
  · simp [_as_bool]
    tauto
  · rfl

/-- C4 (witness): a padded upper-case `YES` parses as true via the amended
statement. -/
theorem as_bool_spec_witness : _as_bool (some " YES ") = true :=
  (as_bool_spec (some " YES ")).1.mpr (by decide)

/-- C7: with managed-credentials mode requested and no cloud-project
identifier set (absent or empty), client construction fails with the
configuration error whose message names `GOOGLE_CLOUD_PROJECT`, for every
environment (in particular whatever API key is present) and every outcome
of ambient credential resolution. -/
theorem build_client_missing_project_fails (env : Env) (adcOk : Bool)
    (hv : _as_bool env.GOOGLE_GENAI_USE_VERTEXAI = true)
    (hp : envTruthy env.GOOGLE_CLOUD_PROJECT = false) :
    (_build_client env adcOk).2 = .error missingProjectMsg ∧
      "GOOGLE_CLOUD_PROJECT".data.isPrefixOf missingProjectMsg.data = true := by
  constructor
  · simp [_build_client, hv, hp]
  · rfl

/-- C7 (witness): managed mode with no project fails even though a
well-formed API key is configured. -/
theorem build_client_missing_project_fails_witness :
    (_build_client ⟨none, some "1", some "AIzaABCDEFGHIJKLMNOPQRST", none, none, none⟩ true).2 =
      .error missingProjectMsg :=
  (build_client_missing_project_fails _ true (by rfl) (by rfl)).1

/-- C8: in API-key mode, when neither `GOOGLE_API_KEY` nor
`GEMINI_API_KEY` supplies a (non-empty) key, client construction fails
with the missing-key configuration error. -/
theorem build_client_missing_key_fails (env : Env) (adcOk : Bool)
    (hv : _as_bool env.GOOGLE_GENAI_USE_VERTEXAI = false)
    (h1 : envTruthy env.GOOGLE_API_KEY = false)
    (h2 : envTruthy env.GEMINI_API_KEY = false) :
    (_build_client env adcOk).2 = .error missingKeyMsg := by
  simp [_build_client, pyOr, hv, h1, h2]

/-- C8 (witness): the empty environment fails with the missing-key error. -/
theorem build_client_missing_key_fails_witness :
    (_build_client ⟨none, none, none, none, none, none⟩ true).2 = .error missingKeyMsg :=
  build_client_missing_key_fails _ true rfl rfl rfl

/-- C9: with managed-credentials mode requested, a project set and ambient
credential resolution succeeding, `_build_client` returns the
managed-credential-mode client for every environment; in particular the
API-key fields are never validated, so a present but malformed key cannot
cause a configuration error on this path. -/
theorem build_client_vertex_ignores_key (env : Env)
    (hv : _as_bool env.GOOGLE_GENAI_USE_VERTEXAI = true)
    (hp : envTruthy env.GOOGLE_CLOUD_PROJECT = true) :
    (_build_client env true).2 =
      .ok (.vertexClient (env.GOOGLE_CLOUD_PROJECT.getD "")
        (env.GOOGLE_CLOUD_LOCATION.getD "us-central1"),
        env.GEMINI_MODEL.getD "gemini-2.5-flash") := by
  simp [_build_client, hv, hp]

/-- C9 (witness): a key with a blocked OAuth prefix is present yet the
managed-mode path succeeds without rejecting it. -/
theorem build_client_vertex_ignores_key_witness :
    (_build_client ⟨none, some "yes", some "Bearer oops", none, some "proj", some "eu"⟩ true).2 =
      .ok (.vertexClient "proj" "eu", "gemini-2.5-flash") :=
  build_client_vertex_ignores_key _ (by rfl) (by rfl)

/-- C5: in API-key mode, a configured key that fully matches the vendor
pattern (literal `AIza` followed by at least 20 characters from the class
of alphanumerics, underscore and hyphen) passes validation and client
construction returns the API-key-mode client holding that key. -/
theorem build_client_valid_key_succeeds (env : Env) (adcOk : Bool) (k : String)
    (hv : _as_bool env.GOOGLE_GENAI_USE_VERTEXAI = false)
    (hk : pyOr env.GOOGLE_API_KEY env.GEMINI_API_KEY = some k)
    (hm : matchesKeyPattern k = true) :
    (_build_client env adcOk).2 =
      .ok (.apiKeyClient k, env.GEMINI_MODEL.getD "gemini-2.5-flash") := by
  have hne : k ≠ "" := matchesKeyPattern_ne_empty k hm
  have htr : envTruthy (some k) = true := by simp [envTruthy, hne]
  have hstrip : pyStrip k = k := pyStrip_of_pattern k hm
  have hval : _validate_developer_api_key k = .ok k := by
    have h := validate_ok_of_pattern k (by rw [hstrip]; exact hm)
    rw [hstrip] at h
    exact h
  simp [_build_client, hv, hk, htr, hval]

/-- C5 (witness): a key of the literal prefix and 20 key characters is
accepted in key mode. -/
theorem build_client_valid_key_succeeds_witness :
    (_build_client ⟨none, none, some "AIzaABCDEFGHIJKLMNOPQRST", none, none, none⟩ true).2 =
      .ok (.apiKeyClient "AIzaABCDEFGHIJKLMNOPQRST", "gemini-2.5-flash") :=
  build_client_valid_key_succeeds _ true "AIzaABCDEFGHIJKLMNOPQRST" (by rfl) (by rfl) (by rfl)

/-- C6 (counterexample): a key whose raw form does not match the vendor
pattern (here because of a leading space) is still accepted, because the
validator strips the key before matching; so rejection of every
non-matching key, as the claim states it, is false. -/
theorem build_client_unstripped_key_counterexample :
    matchesKeyPattern " AIzaABCDEFGHIJKLMNOPQRST" = false ∧
    (_build_client ⟨none, none, some " AIzaABCDEFGHIJKLMNOPQRST", none, none, none⟩ true).2 =
      .ok (.apiKeyClient "AIzaABCDEFGHIJKLMNOPQRST", "gemini-2.5-flash") :=
  ⟨rfl, rfl⟩

/-- C6 (amended): in API-key mode, a key that starts with one of the
blocked prefixes is rejected, and a key whose whitespace-stripped form
does not match the vendor pattern is rejected; both rejections surface as
a configuration error (one of the two validator messages), never silently. -/
theorem build_client_invalid_key_fails (env : Env) (adcOk : Bool) (k : String)
    (hv : _as_bool env.GOOGLE_GENAI_USE_VERTEXAI = false)
    (hk : pyOr env.GOOGLE_API_KEY env.GEMINI_API_KEY = some k)
    (ht : k ≠ "")
    (h : (∃ p ∈ blocked_prefixes, strStartsWith k p = true) ∨
      matchesKeyPattern (pyStrip k) = false) :
    (_build_client env adcOk).2 = .error oauthTokenMsg ∨
      (_build_client env adcOk).2 = .error invalidKeyMsg := by
  have htr : envTruthy (some k) = true := by simp [envTruthy, ht]
  rcases validate_error_cases k h with hval | hval
  · left
    simp [_build_client, hv, hk, htr, hval]
  · right
    simp [_build_client, hv, hk, htr, hval]

/-- C6 (witness): an OAuth-style `ya29.` token is rejected with a
configuration error. -/
theorem build_client_invalid_key_fails_witness :
    (_build_client ⟨none, none, some "ya29.abc", none, none, none⟩ true).2 =
        .error oauthTokenMsg ∨
      (_build_client ⟨none, none, some "ya29.abc", none, none, none⟩ true).2 =
        .error invalidKeyMsg :=
  build_client_invalid_key_fails _ true "ya29.abc" rfl rfl (by decide)
    (Or.inl ⟨"ya29.", by decide, by decide⟩)

/-- C10: the key validator returns the whitespace-stripped form of its
input, and on both key-mode construction paths (direct key mode, and the
fallback taken in managed mode when ambient credentials are missing) the
client is built from that stripped key; hence a key surrounded by
whitespace whose stripped form matches the vendor pattern is accepted and
normalized. -/
theorem validator_normalizes_key :
    (∀ k r, _validate_developer_api_key k = .ok r → r = pyStrip k) ∧
    (∀ (env : Env) (adcOk : Bool) (k : String),
      _as_bool env.GOOGLE_GENAI_USE_VERTEXAI = false →
      pyOr env.GOOGLE_API_KEY env.GEMINI_API_KEY = some k →
      matchesKeyPattern (pyStrip k) = true →
      (_build_client env adcOk).2 =
        .ok (.apiKeyClient (pyStrip k), env.GEMINI_MODEL.getD "gemini-2.5-flash")) ∧
    (∀ (env : Env) (k : String),
      _as_bool env.GOOGLE_GENAI_USE_VERTEXAI = true →
      envTruthy env.GOOGLE_CLOUD_PROJECT = true →
      pyOr env.GOOGLE_API_KEY env.GEMINI_API_KEY = some k →
      matchesKeyPattern (pyStrip k) = true →
      (_build_client env false).2 =
        .ok (.apiKeyClient (pyStrip k), env.GEMINI_MODEL.getD "gemini-2.5-flash")) := by
  have hne : ∀ k : String, matchesKeyPattern (pyStrip k) = true → k ≠ "" := by
    intro k hm he
    rw [he] at hm
    exact absurd hm (by decide)
  refine ⟨validate_ok_eq_strip, ?_, ?_⟩
  · intro env adcOk k hv hk hm
    have htr : envTruthy (some k) = true := by simp [envTruthy, hne k hm]
    have hval := validate_ok_of_pattern k hm
    simp [_build_client, hv, hk, htr, hval]
  · intro env k hv hp hk hm
    have htr : envTruthy (some k) = true := by simp [envTruthy, hne k hm]
    have hval := validate_ok_of_pattern k hm
    simp [_build_client, hv, hp, hk, htr, hval]

/-- C10 (witness): a key padded with spaces on both sides is accepted in
key mode and the constructed client holds the stripped key. -/
theorem validator_normalizes_key_witness :
    (_build_client ⟨none, none, some "  AIzaABCDEFGHIJKLMNOPQRST  ", none, none, none⟩ false).2 =
      .ok (.apiKeyClient "AIzaABCDEFGHIJKLMNOPQRST", "gemini-2.5-flash") := by
  have h := validator_normalizes_key.2.1
    ⟨none, none, some "  AIzaABCDEFGHIJKLMNOPQRST  ", none, none, none⟩ false
    "  AIzaABCDEFGHIJKLMNOPQRST  " rfl rfl (by decide)
  exact h

/-- C1: with managed-credentials mode requested, a project set, and
ambient credential resolution failing, `_build_client` behaves as follows:
if a fallback API key is present it emits the fallback diagnostic and
returns exactly the result of validating that key mapped into an
API-key-mode client; if no fallback key is present it fails with the
ADC configuration error and returns no client. -/
theorem build_client_vertex_fallback (env : Env)
    (hv : _as_bool env.GOOGLE_GENAI_USE_VERTEXAI = true)
    (hp : envTruthy env.GOOGLE_CLOUD_PROJECT = true) :
    (envTruthy (pyOr env.GOOGLE_API_KEY env.GEMINI_API_KEY) = true →
      fallbackNotice ∈ (_build_client env false).1 ∧
      (_build_client env false).2 =
        (_validate_developer_api_key
            ((pyOr env.GOOGLE_API_KEY env.GEMINI_API_KEY).getD "")).map
          (fun k => (Client.apiKeyClient k, env.GEMINI_MODEL.getD "gemini-2.5-flash"))) ∧
    (envTruthy (pyOr env.GOOGLE_API_KEY env.GEMINI_API_KEY) = false →
      (_build_client env false).2 = .error adcMissingMsg) := by
  constructor
  · intro hkey
    rcases hval : _validate_developer_api_key
        ((pyOr env.GOOGLE_API_KEY env.GEMINI_API_KEY).getD "") with e | k
    · constructor
      · simp [_build_client, hv, hp, hkey, hval]
      · simp [_build_client, hv, hp, hkey, hval, Except.map]
    · constructor
      · simp [_build_client, hv, hp, hkey, hval]
      · simp [_build_client, hv, hp, hkey, hval, Except.map]
  · intro hkey
    simp [_build_client, hv, hp, hkey]

/-- C1 (witness): with a valid fallback key, the client falls back to
API-key mode when ambient credentials are missing. -/
theorem build_client_vertex_fallback_witness :
    (_build_client ⟨none, some "true", some "AIzaABCDEFGHIJKLMNOPQRST", none,
        some "proj", none⟩ false).2 =
      .ok (.apiKeyClient "AIzaABCDEFGHIJKLMNOPQRST", "gemini-2.5-flash") := by
  have h := (build_client_vertex_fallback
    ⟨none, some "true", some "AIzaABCDEFGHIJKLMNOPQRST", none, some "proj", none⟩
    (by rfl) (by rfl)).1 (by rfl)
  rw [h.2]
  rfl

/-- C2: the answer operation returns the trimmed reply text when the model
produced usable text and the fixed rephrase-prompt fallback otherwise; the
returned string is never empty and is always equal to its own trim. -/
theorem generate_answer_spec (responseText : Option String) :
    _generate_answer responseText ≠ "" ∧
    pyStrip (_generate_answer responseText) = _generate_answer responseText ∧
    (pyStrip (responseText.getD "") ≠ "" →
      _generate_answer responseText = pyStrip (responseText.getD "")) ∧
    (pyStrip (responseText.getD "") = "" →
      _generate_answer responseText = rephraseFallback) := by
  have hor : (pyOr responseText (some "")).getD "" = responseText.getD "" := by
    cases responseText with
    | none => rfl
    | some s =>
      by_cases hs : s = "" <;> simp [pyOr, envTruthy, hs]
  unfold _generate_answer
  rw [hor]
  by_cases h : pyStrip (responseText.getD "") = ""
  · rw [if_pos h]
    exact ⟨by decide, by decide, fun hc => absurd h hc, fun _ => rfl⟩
  · rw [if_neg h]
    exact ⟨h, pyStrip_idem _, fun _ => rfl, fun hc => absurd hc h⟩

/-- C2 (witness): a padded reply is trimmed, and a whitespace-only reply
yields the fixed fallback string. -/
theorem generate_answer_spec_witness :
    _generate_answer (some " hi ") = "hi" ∧
      _generate_answer (some "  ") = rephraseFallback :=
  ⟨(generate_answer_spec (some " hi ")).2.2.1 (by decide),
   (generate_answer_spec (some "  ")).2.2.2 (by decide)⟩

/-- C3 (counterexample): a server-class request error (such as a 503
transient service failure) raised during a turn is not caught at the turn
boundary: the loop iteration re-raises it instead of printing and
continuing, so the session terminates. -/
theorem mainTurn_server_error_uncaught :
    mainTurn (some "hello") (fun _ => .error (.serverError "503 UNAVAILABLE")) =
        .raiseExc (.serverError "503 UNAVAILABLE") ∧
      mainTurn (some "hello") (fun _ => .error (.serverError "503 UNAVAILABLE")) ≠
        .continueWith ["\nError: 503 UNAVAILABLE\n"] := by
  have h : mainTurn (some "hello") (fun _ => .error (.serverError "503 UNAVAILABLE")) =
      .raiseExc (.serverError "503 UNAVAILABLE") := rfl
  refine ⟨h, ?_⟩
  rw [h]
  simp

/-- C3 (amended): a client-class request error (HTTP 4xx, e.g. quota
exhaustion or an invalid request) raised by the API during a non-empty,
non-exit turn is caught at the turn boundary, printed, and the loop
continues to the next prompt; server-class (5xx) errors are not caught. -/
theorem mainTurn_client_error_continues (raw msg : String)
    (call : String → Except ApiError (Option String))
    (h1 : pyStrip raw ≠ "")
    (h2 : pyLower (pyStrip raw) ≠ "quit")
    (h3 : pyLower (pyStrip raw) ≠ "exit")
    (hc : call (pyStrip raw) = .error (.clientError msg)) :
    mainTurn (some raw) call = .continueWith ["\nError: " ++ msg ++ "\n"] := by
  simp [mainTurn, h1, h2, h3, hc]

/-- C3 (witness): a quota error on one turn is printed and the loop
continues. -/
theorem mainTurn_client_error_continues_witness :
    mainTurn (some "hello") (fun _ => .error (.clientError "429 RESOURCE_EXHAUSTED")) =
      .continueWith ["\nError: 429 RESOURCE_EXHAUSTED\n"] :=
  mainTurn_client_error_continues "hello" "429 RESOURCE_EXHAUSTED"
    (fun _ => .error (.clientError "429 RESOURCE_EXHAUSTED"))
    (by decide) (by decide) (by decide) rfl

end VertexAITesting
